import Mathlib

/-!
# Verification of the generic repository service (`biblioteca-back`)

Shallow embedding of `src/commons/repository/repository.service.ts`:
the abstract class `RepositoryService<T, T_DTO>`, which validates DTOs,
maps them onto partial entities and delegates to an injected TypeORM
repository for create / read / update / soft-delete and filtered listing.

External collaborators (the TypeORM repository, `plainToInstance`,
`validate`, the subclass-supplied `buildPartial` and the two hooks) are
modelled as function-valued fields of a `RepositoryService` structure.
Every service method additionally returns the list of persistence-layer
calls it performed (a `TraceEvent` trace), so that properties of the form
"does not invoke the persistence layer" are statable.
-/

/-! ## Data model -/

/-- A `DeepPartial<T>` value built from a DTO: an optional identity field
(`uuid`) plus the remaining entity fields, abstracted as `ρ`. -/
structure PartialEntity (ρ : Type) where
  uuid : Option String
  rest : ρ
deriving DecidableEq, Repr

/-- `ServiceException` from `src/commons/exceptions/service.exception.ts`,
as thrown by `validateDto`: a user-facing `message` together with the
structured list of rule violations (`errors`, abstracted over `Err`).
Hooks may throw values of the same shape. -/
structure ServiceException (Err : Type) where
  message : String
  errors : List Err
deriving DecidableEq, Repr

/-- One predicate stored under a field name in the `where` object of the
filter options.  `rawLowerLike value` models
`Raw((v) => LOWER(v) Like LOWER(:value), value)` — a case-insensitive
substring match; `base` stands for any other pre-existing predicate. -/
inductive WhereClause where
  | rawLowerLike (value : String)
  | base (tag : Nat)
deriving DecidableEq, Repr

/-- `PaginatedServiceFilters<T>`: a `where` predicate (a JS object,
modelled as an association list from field names to predicates), the
free-text `search` string, the `searchFields` list and the `take`/`skip`
pagination bounds.  Each field is optional, as in TypeScript. -/
structure PaginatedServiceFilters where
  whereMap : Option (List (String × WhereClause))
  search : Option String
  searchFields : Option (List String)
  take : Option Nat
  skip : Option Nat
deriving DecidableEq, Repr

/-- `PaginatedResponse<T>` as assembled by `filter`. -/
structure PaginatedResponse (Entity : Type) where
  data : List Entity
  total : Nat
  limit : Option Nat
  offset : Option Nat
deriving DecidableEq, Repr

/-- The object returned by `remove`: `{ affected: result.affected }`. -/
structure RemoveResult where
  affected : Nat
deriving DecidableEq, Repr

/-- A call made to the injected persistence repository, or to the
subclass-supplied `buildPartial`.  `hardDelete` (physical removal, as
TypeORM `delete` would issue) is included so that "never physically
erases" is statable; the service never emits it. -/
inductive TraceEvent (T_DTO ρ : Type) where
  | buildPartial (dto : T_DTO)
  | save (model : PartialEntity ρ)
  | findOneBy (uuid : String)
  | findAndCount (opt : Option PaginatedServiceFilters)
  | softDelete (uuid : String)
  | hardDelete (uuid : String)
deriving DecidableEq, Repr

/-! ## External library: `isUUID` (class-validator / validator.js)

`class-validator`'s `isUUID(uuid)` with no version argument checks the
"all" pattern `/^[0-9A-F]\x7b8\x7d-[0-9A-F]\x7b4\x7d-[0-9A-F]\x7b4\x7d-[0-9A-F]\x7b4\x7d-[0-9A-F]\x7b12\x7d$/i`:
36 characters, hyphens at positions 8, 13, 18 and 23, hexadecimal digits
everywhere else. -/

/-- A hexadecimal digit, upper or lower case. -/
def isHexChar (c : Char) : Bool :=
  (('0' ≤ c) && (c ≤ '9')) || (('a' ≤ c) && (c ≤ 'f')) || (('A' ≤ c) && (c ≤ 'F'))

/-- `isUUID` from class-validator (version argument omitted: "all"). -/
def isUUID (s : String) : Bool :=
  let cs := s.toList
  cs.length == 36 &&
    (List.range 36).all (fun i =>
      if i == 8 || i == 13 || i == 18 || i == 23 then cs.getD i ' ' == '-'
      else isHexChar (cs.getD i ' '))

/-! ## `buildOptionsToFilter`

```ts
private buildOptionsToFilter(options?) {
  if (options?.searchFields?.length && options?.search?.length) {
    options.where = \x7b\x7d;
    options.searchFields.forEach((field) => {
      options.where[field] = Raw((v) => `LOWER(...) Like LOWER(:value)`,
        { value: `%${options.search}%` });
    });
    delete options.search;
  }
  return options;
}
```
-/

/-- JS property assignment `m[k] = v` on an object modelled as an
association list: overwrite the existing binding for `k`, or append a new
one. -/
def setKey (m : List (String × WhereClause)) (k : String) (v : WhereClause) :
    List (String × WhereClause) :=
  if m.any (fun p => p.1 == k) then
    m.map (fun p => if p.1 == k then (k, v) else p)
  else
    m ++ [(k, v)]

/-- The `where` object rebuilt by the `forEach` loop: starting from `{}`,
assign `Raw(... Like LOWER(:value), %search%)` under every listed field. -/
def buildWhere (fields : List String) (search : String) :
    List (String × WhereClause) :=
  fields.foldl
    (fun m field => setKey m field (WhereClause.rawLowerLike ("%" ++ search ++ "%")))
    []

/-- The guard `options?.searchFields?.length && options?.search?.length`
for a defined `options` object: both lengths must be non-zero numbers
(JS truthiness); a missing field short-circuits to `undefined` (falsy). -/
def searchRewriteGuard (o : PaginatedServiceFilters) : Bool :=
  (match o.searchFields with
   | some fs => fs.length != 0
   | none => false) &&
  (match o.search with
   | some s => s.length != 0
   | none => false)

/-- Net effect of the `if` body on the options object: `options.where`
is replaced by the rebuilt predicate and `delete options.search` removes
the `search` key.  `searchFields`, `take` and `skip` are untouched. -/
def rewriteOptions (o : PaginatedServiceFilters) : PaginatedServiceFilters :=
  if searchRewriteGuard o then
    { o with
      whereMap := some (buildWhere (o.searchFields.getD []) (o.search.getD ""))
      search := none }
  else o

/-- `buildOptionsToFilter(options)`.  The argument is a JS object passed
by reference and mutated in place, so the embedding returns a pair:
first the value of the returned reference, second the value the caller's
`options` binding holds after the call (they are the same object; `none`
models `undefined`). -/
def buildOptionsToFilter (options : Option PaginatedServiceFilters) :
    Option PaginatedServiceFilters × Option PaginatedServiceFilters :=
  match options with
  | none => (none, none)
  | some o =>
      let o' := rewriteOptions o
      (some o', some o')

/-! ## The service and its methods -/

/-- The abstract class `RepositoryService<T, T_DTO>` together with its
injected collaborators: the DTO pipeline (`plainToInstance` over
`dtoConstructor`, the class-validator `validate` producing a violation
list), the two overridable hooks, the subclass-supplied `buildPartial`
and `as DeepPartial<T>` view, and the four TypeORM repository
operations this class uses. -/
structure RepositoryService (T_DTO ρ Entity Err : Type) where
  plainToInstance : T_DTO → T_DTO
  validateRules : T_DTO → List Err
  validateBeforeCreate : T_DTO → Except (ServiceException Err) Unit
  validateBeforeEdit : String → T_DTO → Except (ServiceException Err) Unit
  buildPartial : T_DTO → PartialEntity ρ
  entityToPartial : Entity → PartialEntity ρ
  repoSave : PartialEntity ρ → Entity
  repoFindOneBy : String → Option Entity
  repoFindAndCount : Option PaginatedServiceFilters → List Entity × Nat
  repoSoftDelete : String → Nat

namespace RepositoryService

variable {T_DTO ρ Entity Err : Type}

/-- `validateDto(json)`: instantiate the DTO, run class-validator; on a
non-empty violation list throw
`ServiceException({ message: 'Por favor, confira os dados preenchidos.', errors })`. -/
def validateDto (S : RepositoryService T_DTO ρ Entity Err) (json : T_DTO) :
    Except (ServiceException Err) T_DTO :=
  let dto := S.plainToInstance json
  let errors := S.validateRules dto
  if errors.length != 0 then
    Except.error { message := "Por favor, confira os dados preenchidos.", errors := errors }
  else
    Except.ok dto

/-- `create(data)`: validate DTO → `validateBeforeCreate` hook →
`buildPartial` → `repository.save(model)` → return the saved entity.
Second component: the trace of `buildPartial` / persistence calls. -/
def create (S : RepositoryService T_DTO ρ Entity Err) (data : T_DTO) :
    Except (ServiceException Err) Entity × List (TraceEvent T_DTO ρ) :=
  match S.validateDto data with
  | Except.error e => (Except.error e, [])
  | Except.ok dto =>
    match S.validateBeforeCreate dto with
    | Except.error e => (Except.error e, [])
    | Except.ok _ =>
      let model := S.buildPartial dto
      (Except.ok (S.repoSave model), [TraceEvent.buildPartial dto, TraceEvent.save model])

/-- `edit(uuid, data)`: validate DTO → `validateBeforeEdit` hook →
`buildPartial` → `model.uuid = uuid` → `repository.save(model)`. -/
def edit (S : RepositoryService T_DTO ρ Entity Err) (uuid : String) (data : T_DTO) :
    Except (ServiceException Err) Entity × List (TraceEvent T_DTO ρ) :=
  match S.validateDto data with
  | Except.error e => (Except.error e, [])
  | Except.ok dto =>
    match S.validateBeforeEdit uuid dto with
    | Except.error e => (Except.error e, [])
    | Except.ok _ =>
      let model := S.buildPartial dto
      let model' := { model with uuid := some uuid }
      (Except.ok (S.repoSave model'), [TraceEvent.buildPartial dto, TraceEvent.save model'])

/-- `get(uuid)`: resolve `null` without touching the repository when
`uuid` is not syntactically a UUID, otherwise `repository.findOneBy({ uuid })`. -/
def get (S : RepositoryService T_DTO ρ Entity Err) (uuid : String) :
    Option Entity × List (TraceEvent T_DTO ρ) :=
  if !isUUID uuid then
    (none, [])
  else
    (S.repoFindOneBy uuid, [TraceEvent.findOneBy uuid])

/-- `filter(options)`: rewrite the options, `repository.findAndCount(opt)`,
and assemble `{ data, total, limit: opt?.take, offset: opt?.skip }`. -/
def filter (S : RepositoryService T_DTO ρ Entity Err)
    (options : Option PaginatedServiceFilters) :
    PaginatedResponse Entity × List (TraceEvent T_DTO ρ) :=
  let opt := (buildOptionsToFilter options).1
  let dataTotal := S.repoFindAndCount opt
  ({ data := dataTotal.1
     total := dataTotal.2
     limit := opt.bind (fun o => o.take)
     offset := opt.bind (fun o => o.skip) },
   [TraceEvent.findAndCount opt])

/-- JS property access `p[0]` on a `Promise<T>` object: promises have no
numeric properties, so the access yields `undefined`. -/
def promiseIndexZero {α : Type} (_ : α) : Option α :=
  none

/-- `save(model)`: `return this.repository.save(model as DeepPartial<T>)[0]`.
The repository is invoked with the model, but the returned value is the
property `0` of the `Promise` returned by `repository.save` — `undefined`. -/
def save (S : RepositoryService T_DTO ρ Entity Err) (model : Entity) :
    Option Entity × List (TraceEvent T_DTO ρ) :=
  let part := S.entityToPartial model
  let saved := S.repoSave part
  (promiseIndexZero saved, [TraceEvent.save part])

/-- `remove(uuid)`: `repository.softDelete(uuid)` and return
`{ affected: result.affected }`. -/
def remove (S : RepositoryService T_DTO ρ Entity Err) (uuid : String) :
    RemoveResult × List (TraceEvent T_DTO ρ) :=
  let affected := S.repoSoftDelete uuid
  ({ affected := affected }, [TraceEvent.softDelete uuid])

end RepositoryService

/-- Modelled from the spec: the persistence layer's soft-delete contract
(section 6: "soft-delete returns a count of affected rows"; section 8:
"`{ affected: 1 }` for an existing record, `{ affected: 0 }` for a
non-existent one").  `live` is the list of identifiers of existing,
not-yet-deleted records. -/
def softDeleteAffected (live : List String) (uuid : String) : Nat :=
  if live.contains uuid then 1 else 0

/-- Recognizer for `buildPartial` calls in a trace. -/
def TraceEvent.isBuildPartialCall {T_DTO ρ : Type} : TraceEvent T_DTO ρ → Bool
  | TraceEvent.buildPartial _ => true
  | _ => false

/-- Recognizer for `repository.save` calls in a trace. -/
def TraceEvent.isSaveCall {T_DTO ρ : Type} : TraceEvent T_DTO ρ → Bool
  | TraceEvent.save _ => true
  | _ => false

/-! ## Concrete instances used to witness the theorems -/

/-- A syntactically valid UUID. -/
def validDemoUuid : String := "123e4567-e89b-12d3-a456-426614174000"

/-- A concrete subclass of the service: string DTOs (empty means an empty
required field), a validator rejecting empty DTOs, no-op hooks, a
`buildPartial` that even tries to smuggle in its own identity value, and a
repository with one live record. -/
def demoService : RepositoryService String Unit String String :=
  { plainToInstance := fun d => d
    validateRules := fun d => if d = "" then ["name should not be empty"] else []
    validateBeforeCreate := fun _ => Except.ok ()
    validateBeforeEdit := fun _ _ => Except.ok ()
    buildPartial := fun _ => { uuid := some "dto-supplied-uuid", rest := () }
    entityToPartial := fun e => { uuid := some e, rest := () }
    repoSave := fun _ => "saved-entity"
    repoFindOneBy := fun _ => none
    repoFindAndCount := fun _ => ([], 0)
    repoSoftDelete := softDeleteAffected [validDemoUuid] }

/-- Filter options with both `search` and `searchFields` non-empty and a
pre-existing `where` predicate. -/
def searchDemoOptions : PaginatedServiceFilters :=
  { whereMap := some [("title", WhereClause.base 0)]
    search := some "ann"
    searchFields := some ["name"]
    take := some 10
    skip := some 2 }

/-- Filter options with an empty `searchFields` list. -/
def emptySearchDemoOptions : PaginatedServiceFilters :=
  { whereMap := some [("title", WhereClause.base 0)]
    search := some "ann"
    searchFields := some []
    take := some 10
    skip := some 2 }

/-! ## Helper lemmas -/

theorem string_length_eq_zero_iff (s : String) : s.length = 0 ↔ s = "" :=
  ⟨fun h => String.ext (List.length_eq_zero.mp h), fun h => by simp [h]⟩

theorem setKey_snd {m : List (String × WhereClause)} {k : String} {v : WhereClause}
    (h : ∀ p ∈ m, p.2 = v) : ∀ p ∈ setKey m k v, p.2 = v := by
  intro p hp
  unfold setKey at hp
  split at hp
  · rcases List.mem_map.mp hp with ⟨q, hq, hfq⟩
    by_cases hk : q.1 == k
    · simp [hk] at hfq
      rw [← hfq]
    · simp [hk] at hfq
      exact hfq ▸ h q hq
  · rcases List.mem_append.mp hp with h1 | h1
    · exact h p h1
    · simp at h1
      rw [h1]

theorem setKey_hasKey_new {m : List (String × WhereClause)} (k : String) (v : WhereClause) :
    ∃ p ∈ setKey m k v, p.1 = k := by
  unfold setKey
  split
  · rename_i hany
    rcases List.any_eq_true.mp hany with ⟨q, hq, hqk⟩
    refine ⟨(k, v), List.mem_map.mpr ⟨q, hq, ?_⟩, rfl⟩
    simp [hqk]
  · exact ⟨(k, v), List.mem_append.mpr (Or.inr (by simp)), rfl⟩

theorem setKey_hasKey_old {m : List (String × WhereClause)} {k f : String} {v : WhereClause}
    (h : ∃ p ∈ m, p.1 = f) : ∃ p ∈ setKey m k v, p.1 = f := by
  rcases h with ⟨q, hq, hqf⟩
  unfold setKey
  split
  · by_cases hk : q.1 == k
    · refine ⟨(k, v), List.mem_map.mpr ⟨q, hq, by simp [hk]⟩, ?_⟩
      have : q.1 = k := by simpa using hk
      rw [← this, hqf]
    · exact ⟨q, List.mem_map.mpr ⟨q, hq, by simp [hk]⟩, hqf⟩
  · exact ⟨q, List.mem_append.mpr (Or.inl hq), hqf⟩

theorem foldl_setKey_snd {v : WhereClause} :
    ∀ (fields : List String) (m : List (String × WhereClause)),
      (∀ p ∈ m, p.2 = v) →
      ∀ p ∈ fields.foldl (fun acc field => setKey acc field v) m, p.2 = v := by
  intro fields
  induction fields with
  | nil => intro m h p hp; exact h p hp
  | cons g gs ih =>
      intro m h p hp
      exact ih (setKey m g v) (setKey_snd h) p hp

theorem foldl_setKey_hasKey {v : WhereClause} :
    ∀ (fields : List String) (m : List (String × WhereClause)) (f : String),
      (f ∈ fields ∨ ∃ p ∈ m, p.1 = f) →
      ∃ p ∈ fields.foldl (fun acc field => setKey acc field v) m, p.1 = f := by
  intro fields
  induction fields with
  | nil =>
      intro m f h
      rcases h with h | h
      · exact absurd h (List.not_mem_nil f)
      · exact h
  | cons g gs ih =>
      intro m f h
      simp only [List.foldl_cons]
      rcases h with h | h
      · rcases List.mem_cons.mp h with rfl | hgs
        · exact ih (setKey m f v) f (Or.inr (setKey_hasKey_new f v))
        · exact ih (setKey m g v) f (Or.inl hgs)
      · exact ih (setKey m g v) f (Or.inr (setKey_hasKey_old h))

theorem lookup_of_all_snd {m : List (String × WhereClause)} {v : WhereClause} {f : String}
    (hall : ∀ p ∈ m, p.2 = v) (hkey : ∃ p ∈ m, p.1 = f) :
    m.lookup f = some v := by
  induction m with
  | nil => rcases hkey with ⟨p, hp, _⟩; exact absurd hp (List.not_mem_nil p)
  | cons q t ih =>
      by_cases hq : f == q.1
      · have h2 : q.2 = v := hall q (List.mem_cons_self q t)
        simp [List.lookup, hq, h2]
      · simp only [List.lookup, hq]
        rcases hkey with ⟨p, hp, hpf⟩
        rcases List.mem_cons.mp hp with rfl | hpt
        · exact absurd (by simp [hpf]) hq
        · exact ih (fun r hr => hall r (List.mem_cons_of_mem q hr)) ⟨p, hpt, hpf⟩

theorem buildWhere_lookup {fields : List String} {s : String} {f : String}
    (hf : f ∈ fields) :
    (buildWhere fields s).lookup f = some (WhereClause.rawLowerLike ("%" ++ s ++ "%")) := by
  apply lookup_of_all_snd
  · exact foldl_setKey_snd fields [] (by simp)
  · exact foldl_setKey_hasKey fields [] f (Or.inl hf)

theorem searchRewriteGuard_eq_false_iff (o : PaginatedServiceFilters) :
    searchRewriteGuard o = false ↔
      (o.searchFields = none ∨ o.searchFields = some [] ∨
       o.search = none ∨ o.search = some "") := by
  cases hsf : o.searchFields with
  | none => simp [searchRewriteGuard, hsf]
  | some fs =>
    cases hs : o.search with
    | none => simp [searchRewriteGuard, hsf, hs]
    | some s =>
      simp [searchRewriteGuard, hsf, hs, List.length_eq_zero, string_length_eq_zero_iff]
      tauto

theorem searchRewriteGuard_eq_true {o : PaginatedServiceFilters} {fs : List String} {s : String}
    (hsf : o.searchFields = some fs) (hfs : fs ≠ [])
    (hs : o.search = some s) (hne : s ≠ "") : searchRewriteGuard o = true := by
  have h1 : fs.length ≠ 0 := fun h => hfs (List.length_eq_zero.mp h)
  have h2 : s.length ≠ 0 := fun h => hne ((string_length_eq_zero_iff s).mp h)
  simp [searchRewriteGuard, hsf, hs, h1, h2]

theorem rewriteOptions_take (o : PaginatedServiceFilters) :
    (rewriteOptions o).take = o.take := by
  unfold rewriteOptions
  split <;> rfl

theorem rewriteOptions_skip (o : PaginatedServiceFilters) :
    (rewriteOptions o).skip = o.skip := by
  unfold rewriteOptions
  split <;> rfl

/-! ## Claim theorems -/

section Claims

variable {T_DTO ρ Entity Err : Type}

/-- C1: for every DTO that fails a declarative validation rule, both
`create(data)` and `edit(uuid, data)` fail with a `ServiceException`
carrying the user-facing message and the structured list of rule
violations, and make no persistence-layer call at all (empty trace), so
persisted state is unchanged. -/
theorem create_and_edit_reject_invalid_dto (S : RepositoryService T_DTO ρ Entity Err)
    (uuid : String) (data : T_DTO)
    (h : S.validateRules (S.plainToInstance data) ≠ []) :
    S.create data =
      (Except.error { message := "Por favor, confira os dados preenchidos."
                      errors := S.validateRules (S.plainToInstance data) }, []) ∧
    S.edit uuid data =
      (Except.error { message := "Por favor, confira os dados preenchidos."
                      errors := S.validateRules (S.plainToInstance data) }, []) := by
  have hlen : ((S.validateRules (S.plainToInstance data)).length != 0) = true := by
    rw [bne_iff_ne]
    simpa [List.length_eq_zero] using h
  constructor
  · simp [RepositoryService.create, RepositoryService.validateDto, hlen]
  · simp [RepositoryService.edit, RepositoryService.validateDto, hlen]

/-- C1 witness: the empty DTO fails `demoService`'s required-field rule,
and `create`/`edit` reject it with the validation error and an empty
persistence trace. -/
theorem create_and_edit_reject_invalid_dto_witness :
    demoService.validateRules (demoService.plainToInstance "") ≠ [] ∧
    demoService.create "" =
      (Except.error { message := "Por favor, confira os dados preenchidos."
                      errors := demoService.validateRules (demoService.plainToInstance "") },
       []) ∧
    demoService.edit "u1" "" =
      (Except.error { message := "Por favor, confira os dados preenchidos."
                      errors := demoService.validateRules (demoService.plainToInstance "") },
       []) :=
  ⟨by decide,
   (create_and_edit_reject_invalid_dto demoService "u1" "" (by decide)).1,
   (create_and_edit_reject_invalid_dto demoService "u1" "" (by decide)).2⟩

/-- C2: for every DTO that passes validation and whose create hook
succeeds, `create(data)` invokes `buildPartial` exactly once, invokes the
persistence layer's `save` exactly once, and returns exactly the value
the persistence layer's `save` returned. -/
theorem create_valid_dto_persists_once (S : RepositoryService T_DTO ρ Entity Err)
    (data : T_DTO)
    (hval : S.validateRules (S.plainToInstance data) = [])
    (hhook : S.validateBeforeCreate (S.plainToInstance data) = Except.ok ()) :
    S.create data =
      (Except.ok (S.repoSave (S.buildPartial (S.plainToInstance data))),
       [TraceEvent.buildPartial (S.plainToInstance data),
        TraceEvent.save (S.buildPartial (S.plainToInstance data))]) ∧
    (S.create data).2.countP TraceEvent.isBuildPartialCall = 1 ∧
    (S.create data).2.countP TraceEvent.isSaveCall = 1 ∧
    (S.create data).1 = Except.ok (S.repoSave (S.buildPartial (S.plainToInstance data))) := by
  have h1 : S.create data =
      (Except.ok (S.repoSave (S.buildPartial (S.plainToInstance data))),
       [TraceEvent.buildPartial (S.plainToInstance data),
        TraceEvent.save (S.buildPartial (S.plainToInstance data))]) := by
    simp [RepositoryService.create, RepositoryService.validateDto, hval, hhook]
  refine ⟨h1, ?_, ?_, ?_⟩
  · rw [h1]
    simp [List.countP_cons, TraceEvent.isBuildPartialCall]
  · rw [h1]
    simp [List.countP_cons, TraceEvent.isSaveCall]
  · rw [h1]

/-- C2 witness: a valid DTO leads to exactly one `buildPartial` call, one
`save` call, and the saved entity being returned. -/
theorem create_valid_dto_persists_once_witness :
    demoService.validateRules (demoService.plainToInstance "Anna") = [] ∧
    (demoService.create "Anna").2.countP TraceEvent.isBuildPartialCall = 1 ∧
    (demoService.create "Anna").2.countP TraceEvent.isSaveCall = 1 ∧
    (demoService.create "Anna").1 =
      Except.ok (demoService.repoSave (demoService.buildPartial (demoService.plainToInstance "Anna"))) :=
  ⟨by decide,
   (create_valid_dto_persists_once demoService "Anna" (by decide) rfl).2.1,
   (create_valid_dto_persists_once demoService "Anna" (by decide) rfl).2.2.1,
   (create_valid_dto_persists_once demoService "Anna" (by decide) rfl).2.2.2⟩

/-- C3: every partial entity that `edit(uuid, data)` hands to the
persistence layer's `save` carries identity `uuid`, regardless of any
identity value `buildPartial` produced from the DTO. -/
theorem edit_forces_identity_to_uuid (S : RepositoryService T_DTO ρ Entity Err)
    (uuid : String) (data : T_DTO) (m : PartialEntity ρ)
    (hm : TraceEvent.save m ∈ (S.edit uuid data).2) :
    m.uuid = some uuid := by
  unfold RepositoryService.edit at hm
  split at hm
  · simp at hm
  · split at hm
    · simp at hm
    · simp at hm
      rw [hm]

/-- C3 witness: `demoService.buildPartial` yields identity
`dto-supplied-uuid`, yet the partial entity saved by `edit` carries the
`uuid` argument `u1`. -/
theorem edit_forces_identity_to_uuid_witness :
    PartialEntity.uuid { uuid := some "u1", rest := () } = some "u1" :=
  edit_forces_identity_to_uuid demoService "u1" "Anna"
    { uuid := some "u1", rest := () } (by decide)

/-- C4: when both `search` and `searchFields` are non-empty,
`buildOptionsToFilter` returns options whose `where` predicate maps every
listed field to a case-insensitive substring match against `search` and
in which the `search` key is absent; when `searchFields` or `search` is
absent or empty, the returned options equal the input unchanged. -/
theorem buildOptionsToFilter_rewrites_search (o : PaginatedServiceFilters) :
    (∀ fs s, o.searchFields = some fs → fs ≠ [] → o.search = some s → s ≠ "" →
      ∃ o2, (buildOptionsToFilter (some o)).1 = some o2 ∧
        o2.search = none ∧
        ∃ w, o2.whereMap = some w ∧
          ∀ f ∈ fs, w.lookup f = some (WhereClause.rawLowerLike ("%" ++ s ++ "%"))) ∧
    ((o.searchFields = none ∨ o.searchFields = some [] ∨
      o.search = none ∨ o.search = some "") →
      (buildOptionsToFilter (some o)).1 = some o) := by
  constructor
  · intro fs s hsf hfs hs hne
    have hg : searchRewriteGuard o = true := searchRewriteGuard_eq_true hsf hfs hs hne
    refine ⟨rewriteOptions o, rfl, ?_, buildWhere fs s, ?_, ?_⟩
    · simp [rewriteOptions, hg]
    · simp [rewriteOptions, hg, hsf, hs]
    · intro f hf
      exact buildWhere_lookup hf
  · intro h
    have hg : searchRewriteGuard o = false := (searchRewriteGuard_eq_false_iff o).mpr h
    simp [buildOptionsToFilter, rewriteOptions, hg]

/-- C4 witness: `search := "ann"`, `searchFields := ["name"]` rewrites the
predicate to a case-insensitive substring match on `name` and drops the
`search` key; with `searchFields := []` the options come back unchanged. -/
theorem buildOptionsToFilter_rewrites_search_witness :
    (∃ o2, (buildOptionsToFilter (some searchDemoOptions)).1 = some o2 ∧
      o2.search = none ∧
      ∃ w, o2.whereMap = some w ∧
        ∀ f ∈ ["name"], w.lookup f = some (WhereClause.rawLowerLike ("%" ++ "ann" ++ "%"))) ∧
    (buildOptionsToFilter (some emptySearchDemoOptions)).1 = some emptySearchDemoOptions :=
  ⟨(buildOptionsToFilter_rewrites_search searchDemoOptions).1 ["name"] "ann"
      rfl (by decide) rfl (by decide),
   (buildOptionsToFilter_rewrites_search emptySearchDemoOptions).2 (Or.inr (Or.inl rfl))⟩

/-- C5: for a string that is not a syntactically valid UUID, `get`
resolves to `null` without any persistence-layer call; for a valid UUID
with no matching record, `get` resolves to `null` after one
`findOneBy` query. -/
theorem get_malformed_uuid_resolves_null (S : RepositoryService T_DTO ρ Entity Err)
    (uuid : String) :
    (isUUID uuid = false → S.get uuid = (none, [])) ∧
    (isUUID uuid = true → S.repoFindOneBy uuid = none →
      S.get uuid = (none, [TraceEvent.findOneBy uuid])) := by
  constructor
  · intro h
    simp [RepositoryService.get, h]
  · intro h habs
    simp [RepositoryService.get, h, habs]

/-- C5 witness: `get("not-a-uuid")` resolves to absent without querying;
`get` of a valid but absent UUID resolves to absent after querying. -/
theorem get_malformed_uuid_resolves_null_witness :
    demoService.get "not-a-uuid" = (none, []) ∧
    demoService.get validDemoUuid = (none, [TraceEvent.findOneBy validDemoUuid]) :=
  ⟨(get_malformed_uuid_resolves_null demoService "not-a-uuid").1 (by decide),
   (get_malformed_uuid_resolves_null demoService validDemoUuid).2 (by decide) rfl⟩

/-- C6 (code bug): `save(model)` does invoke the persistence layer's
`save` with the model, but `repository.save(model)[0]` reads property `0`
of the returned `Promise`, so the method resolves to `undefined` and
never returns the persisted entity (here `saved-entity`). -/
theorem save_returns_undefined_bug :
    (demoService.save "e1").1 = none ∧
    demoService.repoSave (demoService.entityToPartial "e1") = "saved-entity" ∧
    (demoService.save "e1").2 = [TraceEvent.save { uuid := some "e1", rest := () }] :=
  ⟨rfl, rfl, rfl⟩

/-- C7: `remove(uuid)` performs exactly one soft delete (no physical
delete ever reaches the persistence layer through this path) and returns
`{ affected := n }` with `n` the persistence layer's reported count:
1 when a live record with that identifier exists, 0 otherwise. -/
theorem remove_soft_deletes_and_reports_affected (S : RepositoryService T_DTO ρ Entity Err)
    (live : List String) (uuid : String)
    (h : S.repoSoftDelete = softDeleteAffected live) :
    (S.remove uuid).1 = { affected := if live.contains uuid then 1 else 0 } ∧
    (S.remove uuid).2 = [TraceEvent.softDelete uuid] ∧
    (∀ u, TraceEvent.hardDelete u ∉ (S.remove uuid).2) := by
  refine ⟨?_, rfl, ?_⟩
  · simp [RepositoryService.remove, h, softDeleteAffected]
  · intro u
    simp [RepositoryService.remove]

/-- C7 witness: removing the one live record reports `affected := 1`,
removing an absent one reports `affected := 0`, and the trace holds a
single soft delete. -/
theorem remove_soft_deletes_and_reports_affected_witness :
    (demoService.remove validDemoUuid).1 = { affected := 1 } ∧
    (demoService.remove "00000000-0000-0000-0000-000000000000").1 = { affected := 0 } ∧
    (demoService.remove validDemoUuid).2 = [TraceEvent.softDelete validDemoUuid] :=
  ⟨((remove_soft_deletes_and_reports_affected demoService [validDemoUuid]
      validDemoUuid rfl).1).trans (by decide),
   ((remove_soft_deletes_and_reports_affected demoService [validDemoUuid]
      "00000000-0000-0000-0000-000000000000" rfl).1).trans (by decide),
   (remove_soft_deletes_and_reports_affected demoService [validDemoUuid]
      validDemoUuid rfl).2.1⟩

/-- C8: the response of `filter(options)` echoes the requested pagination
bounds — `limit` equals the input `take` and `offset` the input `skip` —
while `data` and `total` come from the persistence layer's `findAndCount`
under the rewritten options. -/
theorem filter_echoes_requested_bounds (S : RepositoryService T_DTO ρ Entity Err)
    (options : Option PaginatedServiceFilters) :
    (S.filter options).1.limit = options.bind (fun o => o.take) ∧
    (S.filter options).1.offset = options.bind (fun o => o.skip) ∧
    (S.filter options).1.data = (S.repoFindAndCount (buildOptionsToFilter options).1).1 ∧
    (S.filter options).1.total = (S.repoFindAndCount (buildOptionsToFilter options).1).2 ∧
    (S.filter options).2 = [TraceEvent.findAndCount (buildOptionsToFilter options).1] := by
  refine ⟨?_, ?_, rfl, rfl, rfl⟩
  · cases options with
    | none => rfl
    | some o => simp [RepositoryService.filter, buildOptionsToFilter, rewriteOptions_take]
  · cases options with
    | none => rfl
    | some o => simp [RepositoryService.filter, buildOptionsToFilter, rewriteOptions_skip]

/-- C9 counterexample: `buildOptionsToFilter` mutates the caller's
options object — after the call on options with non-empty `search` and
`searchFields`, the caller's object no longer equals its pre-call value
(its `where` was replaced and its `search` key deleted). -/
theorem buildOptionsToFilter_not_pure_counterexample :
    (buildOptionsToFilter (some searchDemoOptions)).2 ≠ some searchDemoOptions := by
  decide

/-- C9 amended: `buildOptionsToFilter` returns the very object the caller
passed (the caller's options value after the call equals the returned
value, i.e. the rewrite happens in place, not on a copy); when `search`
or `searchFields` is absent or empty the caller's object is returned
unchanged. -/
theorem buildOptionsToFilter_mutates_in_place (options : Option PaginatedServiceFilters) :
    (buildOptionsToFilter options).2 = (buildOptionsToFilter options).1 ∧
    (∀ o, options = some o →
      (o.searchFields = none ∨ o.searchFields = some [] ∨
       o.search = none ∨ o.search = some "") →
      buildOptionsToFilter options = (some o, some o)) := by
  constructor
  · cases options <;> rfl
  · rintro o rfl h
    have hg : searchRewriteGuard o = false := (searchRewriteGuard_eq_false_iff o).mpr h
    simp [buildOptionsToFilter, rewriteOptions, hg]

/-- C9 witness: with an empty `searchFields` list, both the returned
value and the caller's object equal the untouched input. -/
theorem buildOptionsToFilter_mutates_in_place_witness :
    buildOptionsToFilter (some emptySearchDemoOptions) =
      (some emptySearchDemoOptions, some emptySearchDemoOptions) :=
  (buildOptionsToFilter_mutates_in_place (some emptySearchDemoOptions)).2
    emptySearchDemoOptions rfl (Or.inr (Or.inl rfl))

/-- C10: unlike `get`, `remove` performs no syntactic UUID validation:
even a malformed identifier is passed straight to the persistence layer's
soft delete and its reported count is returned, while `get` on the same
identifier makes no persistence call. -/
theorem remove_skips_uuid_validation (S : RepositoryService T_DTO ρ Entity Err)
    (uuid : String) (h : isUUID uuid = false) :
    (S.remove uuid).2 = [TraceEvent.softDelete uuid] ∧
    (S.remove uuid).1 = { affected := S.repoSoftDelete uuid } ∧
    (S.get uuid).2 = [] := by
  refine ⟨rfl, rfl, ?_⟩
  simp [RepositoryService.get, h]

/-- C10 witness: the malformed identifier `not-a-uuid` still reaches the
soft delete. -/
theorem remove_skips_uuid_validation_witness :
    isUUID "not-a-uuid" = false ∧
    (demoService.remove "not-a-uuid").2 = [TraceEvent.softDelete "not-a-uuid"] ∧
    (demoService.remove "not-a-uuid").1 = { affected := demoService.repoSoftDelete "not-a-uuid" } :=
  ⟨by decide,
   (remove_skips_uuid_validation demoService "not-a-uuid" (by decide)).1,
   (remove_skips_uuid_validation demoService "not-a-uuid" (by decide)).2.1⟩

end Claims
